import Mathlib

/-!
Shallow embedding of the CryptoBot signal/trade engine (src/main.py) and
verification of its specified properties.

Prices, pivot levels and percentages are modelled as rationals (ℚ);
timestamps as integers (ℤ, seconds).  The external collaborators (market
data fetch, Telegram notification, JSON file persistence) are modelled by
explicit inputs and outputs: a price oracle `String → Option ℚ` stands for
`fetch_data_safe` (`none` = empty dataframe / fetch failure), a returned
`Bool`/`Nat` records whether a durable write happened and how many
notifications were emitted.
-/

namespace CryptoBot

/-- Trend classification, main.py lines 232-233: the strings
"BULLISH" / "BEARISH". -/
inductive Trend where
  | BULLISH
  | BEARISH
deriving DecidableEq, Repr

/-- The master signal, main.py lines 236-244: the strings
"STRONG BUY" / "STRONG SELL" / "WAIT (Neutral)". -/
inductive Signal where
  | STRONG_BUY
  | STRONG_SELL
  | WAIT
deriving DecidableEq, Repr

/-- Trade status strings: "ACTIVE" (line 122) and the terminal statuses
"TP1_HIT" / "TP2_HIT" / "SL_HIT" (lines 149-163). -/
inductive Status where
  | ACTIVE
  | TP1_HIT
  | TP2_HIT
  | SL_HIT
deriving DecidableEq, Repr

/-- Trade outcome strings "WIN" / "LOSS"; `None` before resolution
(line 123). -/
inductive Outcome where
  | WIN
  | LOSS
deriving DecidableEq, Repr

/-- One row of an OHLCV dataframe (main.py line 96 column order:
timestamp, open, high, low, close, volume).  `open` is a reserved word in
Lean, so that column is named `opn`. -/
structure Candle where
  timestamp : ℤ
  opn : ℚ
  high : ℚ
  low : ℚ
  close : ℚ
  volume : ℚ
deriving DecidableEq, Repr

/-- The dict returned by `calculate_cpr_levels` (main.py lines 82-86),
fields in the source's key order PP, TC, BC, R1, S1, R2, S2. -/
structure Cpr where
  PP : ℚ
  TC : ℚ
  BC : ℚ
  R1 : ℚ
  S1 : ℚ
  R2 : ℚ
  S2 : ℚ
deriving DecidableEq, Repr

/-- `calculate_cpr_levels` (main.py lines 74-86).  `df_daily.empty or
len(df_daily) < 2` collapses to `length < 2`; `df_daily.iloc[-2]` is the
second-to-last row.  The source computes `TC = PP - BC + PP`. -/
def calculate_cpr_levels (df_daily : List Candle) : Option Cpr :=
  if h : df_daily.length < 2 then none
  else
    let prev_day := df_daily.get ⟨df_daily.length - 2, by omega⟩
    let H := prev_day.high
    let L := prev_day.low
    let C := prev_day.close
    let PP := (H + L + C) / 3
    let BC := (H + L) / 2
    let TC := PP - BC + PP
    some ⟨PP, TC, BC, 2 * PP - L, 2 * PP - H, PP + (H - L), PP - (H - L)⟩

/-- The rolling mean (`df['close'].rolling(n).mean()`, main.py lines
99-100) evaluated at the latest bar: the mean of the last `n` closes,
undefined (`NaN`, dropped by `dropna`) when fewer than `n` closes exist. -/
def sma_latest (n : ℕ) (closes : List ℚ) : Option ℚ :=
  if closes.length < n ∨ n = 0 then none
  else some ((closes.drop (closes.length - n)).sum / (n : ℚ))

/-- Trend extraction at the latest bar (main.py lines 232-233):
`"BULLISH" if sma9 > sma20 else "BEARISH"`, on a close series whose sma9
and sma20 are both defined. -/
def trend_latest (closes : List ℚ) : Option Trend :=
  match sma_latest 9 closes, sma_latest 20 closes with
  | some sma9, some sma20 =>
      some (if sma9 > sma20 then Trend.BULLISH else Trend.BEARISH)
  | _, _ => none

/-- The master signal logic, main.py lines 236-244: default
"WAIT (Neutral)", overridden by the BUY branch then the SELL branch. -/
def master_signal (trend_4h trend_1h : Trend) (pp price : ℚ) : Signal :=
  if trend_4h = Trend.BULLISH ∧ trend_1h = Trend.BULLISH ∧ price > pp then
    Signal.STRONG_BUY
  else if trend_4h = Trend.BEARISH ∧ trend_1h = Trend.BEARISH ∧ price < pp then
    Signal.STRONG_SELL
  else
    Signal.WAIT

/-- `"BUY" in signal` on the signal strings: true only for "STRONG BUY". -/
def signalHasBuy : Signal → Bool
  | Signal.STRONG_BUY => true
  | _ => false

/-- `"SELL" in signal` on the signal strings: true only for "STRONG SELL". -/
def signalHasSell : Signal → Bool
  | Signal.STRONG_SELL => true
  | _ => false

/-- A trade record, the dict built by `record_trade` (main.py lines
113-125), fields in the source's key order. -/
structure Trade where
  id : ℕ
  symbol : String
  signal : Signal
  entry : ℚ
  tp1 : ℚ
  tp2 : ℚ
  sl : ℚ
  timestamp : ℤ
  status : Status
  outcome : Option Outcome
  pnl_percent : ℚ
deriving DecidableEq, Repr

/-- `record_trade` (main.py lines 110-127): append a fresh ACTIVE record
with `id = len(trade_history) + 1` and `timestamp = datetime.now()`;
the unconditional `save_history()` there is a pure append to the same
ledger in this model. -/
def record_trade (history : List Trade) (symbol : String) (signal : Signal)
    (entry tp1 tp2 sl : ℚ) (now : ℤ) : List Trade :=
  history ++ [⟨history.length + 1, symbol, signal, entry, tp1, tp2, sl, now,
    Status.ACTIVE, none, 0⟩]

/-- `generate_and_send_signal` (main.py lines 215-284), restricted to its
decision logic and ledger effect.  The values the source fetches (the two
trends, the pivot levels, the 4h close `price`) are explicit inputs; the
returned Bool records whether the signal notification was sent.  The
source returns early (no trade, no message) when the signal string
contains neither "BUY" nor "SELL" (lines 246-247). -/
def generate_and_send_signal (symbol : String) (trend_4h trend_1h : Trend)
    (cpr : Cpr) (price : ℚ) (history : List Trade) (now : ℤ) :
    List Trade × Bool :=
  let signal := master_signal trend_4h trend_1h cpr.PP price
  if signalHasBuy signal = false ∧ signalHasSell signal = false then
    (history, false)
  else
    let is_buy := signalHasBuy signal
    let tp1 := if is_buy then cpr.R1 else cpr.S1
    let tp2 := if is_buy then cpr.R2 else cpr.S2
    let sl := if is_buy then min cpr.BC cpr.TC else max cpr.BC cpr.TC
    (record_trade history symbol signal price tp1 tp2 sl now, true)

/-- The per-trade body of `check_trades` (main.py lines 136-176).  The
price oracle stands for `fetch_data_safe(trade['symbol'], "1h")`; `none`
models an empty dataframe (`continue`, no state change).  The returned
Bool is true exactly when this trade transitioned (a notification was
sent and `updated` was set). -/
def check_single_trade (priceOf : String → Option ℚ) (trade : Trade) :
    Trade × Bool :=
  if trade.status = Status.ACTIVE then
    match priceOf trade.symbol with
    | none => (trade, false)
    | some current_price =>
      let is_buy := signalHasBuy trade.signal
      let hit : Option (Status × Outcome) :=
        if is_buy then
          if current_price ≥ trade.tp2 then some (Status.TP2_HIT, Outcome.WIN)
          else if current_price ≥ trade.tp1 then some (Status.TP1_HIT, Outcome.WIN)
          else if current_price ≤ trade.sl then some (Status.SL_HIT, Outcome.LOSS)
          else none
        else
          if current_price ≤ trade.tp2 then some (Status.TP2_HIT, Outcome.WIN)
          else if current_price ≤ trade.tp1 then some (Status.TP1_HIT, Outcome.WIN)
          else if current_price ≥ trade.sl then some (Status.SL_HIT, Outcome.LOSS)
          else none
      match hit with
      | none => (trade, false)
      | some (new_status, oc) =>
        let diff := (current_price - trade.entry) / trade.entry * 100
        let diff := if ¬ is_buy then -diff else diff
        (⟨trade.id, trade.symbol, trade.signal, trade.entry, trade.tp1,
          trade.tp2, trade.sl, trade.timestamp, new_status, some oc, diff⟩,
         true)
  else (trade, false)

/-- One `check_trades` pass (main.py lines 131-181): every trade is run
through the per-trade body; the ledger is rewritten (`save_history`)
exactly when `updated` ended true; one notification per transition.
Returns (new ledger, save performed, notification count). -/
def check_trades (priceOf : String → Option ℚ) (history : List Trade) :
    List Trade × Bool × ℕ :=
  let results := history.map (check_single_trade priceOf)
  (results.map Prod.fst, results.any Prod.snd,
   (results.filter Prod.snd).length)

/-- The window filter of `daily_report` (main.py line 190):
`datetime.fromisoformat(t['timestamp']) >= now - timedelta(hours=24)`,
with timestamps in seconds (24 h = 86400 s). -/
def daily_report_recent (history : List Trade) (now : ℤ) : List Trade :=
  history.filter (fun t => decide (now - 86400 ≤ t.timestamp))

/-- The figures of the 24h report message (main.py lines 195-205). -/
structure Report where
  signals : ℕ
  wins : ℕ
  losses : ℕ
  net_pct : ℚ
deriving DecidableEq, Repr

/-- The aggregation step of `daily_report` (main.py lines 183-209), after
the forced `check_trades` pass: `none` models the "No trades in last 24h"
message, otherwise the count / win count / loss count / net pnl over the
filtered window. -/
def daily_report (history : List Trade) (now : ℤ) : Option Report :=
  let recent := daily_report_recent history now
  if recent.isEmpty then none
  else
    some ⟨recent.length,
      (recent.filter (fun t => decide (t.outcome = some Outcome.WIN))).length,
      (recent.filter (fun t => decide (t.outcome = some Outcome.LOSS))).length,
      (recent.map (fun t => t.pnl_percent)).sum⟩

/-- Win count of the status endpoint (main.py line 320). -/
def home_wins (history : List Trade) : ℕ :=
  (history.filter (fun t => decide (t.outcome = some Outcome.WIN))).length

/-- Loss count of the status endpoint (main.py line 321). -/
def home_losses (history : List Trade) : ℕ :=
  (history.filter (fun t => decide (t.outcome = some Outcome.LOSS))).length

/-- Win rate of the status endpoint (main.py line 322):
`(wins / (wins + losses) * 100) if (wins + losses) > 0 else 0`. -/
def home_wr (history : List Trade) : ℚ :=
  if home_wins history + home_losses history > 0 then
    (home_wins history : ℚ) /
      ((home_wins history : ℚ) + (home_losses history : ℚ)) * 100
  else 0

end CryptoBot

namespace CryptoBot

/-! ### Helper lemmas -/

lemma generate_and_send_signal_wait (symbol : String)
    (trend_4h trend_1h : Trend) (cpr : Cpr) (price : ℚ)
    (history : List Trade) (now : ℤ)
    (h : master_signal trend_4h trend_1h cpr.PP price = Signal.WAIT) :
    generate_and_send_signal symbol trend_4h trend_1h cpr price history now
      = (history, false) := by
  simp [generate_and_send_signal, h, signalHasBuy, signalHasSell]

/-- A concrete pivot-level record used by witnesses. -/
def cpr_ex : Cpr := ⟨100, 102, 98, 110, 90, 120, 80⟩

/-! ### C1 -/

/-- C1: the signal decision is a pure function of the two trend
classifications, the pivot point and the current price: it returns
STRONG_BUY exactly when the 4h trend is BULLISH, the 1h trend is BULLISH
and price > PP; STRONG_SELL exactly when the 4h trend is BEARISH, the 1h
trend is BEARISH and price < PP; and WAIT in every other case, and in the
WAIT case no trade is created and no notification is sent. -/
theorem C1_signal_decision (trend_4h trend_1h : Trend) (cpr : Cpr)
    (price : ℚ) (symbol : String) (history : List Trade) (now : ℤ) :
    (master_signal trend_4h trend_1h cpr.PP price = Signal.STRONG_BUY ↔
       trend_4h = Trend.BULLISH ∧ trend_1h = Trend.BULLISH ∧ price > cpr.PP) ∧
    (master_signal trend_4h trend_1h cpr.PP price = Signal.STRONG_SELL ↔
       trend_4h = Trend.BEARISH ∧ trend_1h = Trend.BEARISH ∧ price < cpr.PP) ∧
    (master_signal trend_4h trend_1h cpr.PP price = Signal.WAIT ↔
       ¬(trend_4h = Trend.BULLISH ∧ trend_1h = Trend.BULLISH ∧ price > cpr.PP) ∧
       ¬(trend_4h = Trend.BEARISH ∧ trend_1h = Trend.BEARISH ∧ price < cpr.PP)) ∧
    (master_signal trend_4h trend_1h cpr.PP price = Signal.WAIT →
       generate_and_send_signal symbol trend_4h trend_1h cpr price history now
         = (history, false)) := by
  refine ⟨?_, ?_, ?_, generate_and_send_signal_wait _ _ _ _ _ _ _⟩ <;>
    · unfold master_signal
      split_ifs with h1 h2 <;> simp_all

/-- Witness for C1 at concrete inputs: 4h BULLISH but 1h BEARISH gives
WAIT, and no trade nor notification results. -/
theorem C1_signal_decision_witness :
    generate_and_send_signal "BTCUSDT" Trend.BULLISH Trend.BEARISH cpr_ex
      105 [] 0 = ([], false) :=
  (C1_signal_decision Trend.BULLISH Trend.BEARISH cpr_ex 105 "BTCUSDT" [] 0).2.2.2
    (by decide)

end CryptoBot

namespace CryptoBot

/-! ### C2 -/

/-- C2: for every ACTIVE trade evaluated by the monitor, thresholds are
checked in the priority order tp2, then tp1, then sl: for a BUY trade, if
price ≥ tp2 the trade resolves TP2_HIT/WIN regardless of whether tp1 or
sl is also crossed in the same sample; else if price ≥ tp1 it resolves
TP1_HIT/WIN; else if price ≤ sl it resolves SL_HIT/LOSS; the SELL case is
mirrored (≤ for targets, ≥ for stop); otherwise the trade stays ACTIVE
untouched. -/
theorem C2_threshold_priority (priceOf : String → Option ℚ) (t : Trade)
    (p : ℚ) (hact : t.status = Status.ACTIVE)
    (hp : priceOf t.symbol = some p) :
    (signalHasBuy t.signal = true →
      (p ≥ t.tp2 →
        (check_single_trade priceOf t).1.status = Status.TP2_HIT ∧
        (check_single_trade priceOf t).1.outcome = some Outcome.WIN) ∧
      (p < t.tp2 → p ≥ t.tp1 →
        (check_single_trade priceOf t).1.status = Status.TP1_HIT ∧
        (check_single_trade priceOf t).1.outcome = some Outcome.WIN) ∧
      (p < t.tp2 → p < t.tp1 → p ≤ t.sl →
        (check_single_trade priceOf t).1.status = Status.SL_HIT ∧
        (check_single_trade priceOf t).1.outcome = some Outcome.LOSS) ∧
      (p < t.tp2 → p < t.tp1 → p > t.sl →
        check_single_trade priceOf t = (t, false))) ∧
    (signalHasBuy t.signal = false →
      (p ≤ t.tp2 →
        (check_single_trade priceOf t).1.status = Status.TP2_HIT ∧
        (check_single_trade priceOf t).1.outcome = some Outcome.WIN) ∧
      (p > t.tp2 → p ≤ t.tp1 →
        (check_single_trade priceOf t).1.status = Status.TP1_HIT ∧
        (check_single_trade priceOf t).1.outcome = some Outcome.WIN) ∧
      (p > t.tp2 → p > t.tp1 → p ≥ t.sl →
        (check_single_trade priceOf t).1.status = Status.SL_HIT ∧
        (check_single_trade priceOf t).1.outcome = some Outcome.LOSS) ∧
      (p > t.tp2 → p > t.tp1 → p < t.sl →
        check_single_trade priceOf t = (t, false))) := by
  constructor
  · intro hbuy
    refine ⟨fun h2 => ?_, fun h1 h2 => ?_, fun h1 h2 h3 => ?_,
      fun h1 h2 h3 => ?_⟩
    · simp [check_single_trade, hact, hp, hbuy, h2]
    · simp [check_single_trade, hact, hp, hbuy, not_le.mpr h1, h2]
    · simp [check_single_trade, hact, hp, hbuy, not_le.mpr h1,
        not_le.mpr h2, h3]
    · simp [check_single_trade, hact, hp, hbuy, not_le.mpr h1,
        not_le.mpr h2, not_le.mpr h3]
  · intro hsell
    refine ⟨fun h2 => ?_, fun h1 h2 => ?_, fun h1 h2 h3 => ?_,
      fun h1 h2 h3 => ?_⟩
    · simp [check_single_trade, hact, hp, hsell, h2]
    · simp [check_single_trade, hact, hp, hsell, not_le.mpr h1, h2]
    · simp [check_single_trade, hact, hp, hsell, not_le.mpr h1,
        not_le.mpr h2, h3]
    · simp [check_single_trade, hact, hp, hsell, not_le.mpr h1,
        not_le.mpr h2, not_le.mpr h3]

/-- A concrete ACTIVE BUY trade used by witnesses (the spec's end-to-end
scenario: entry 100, tp1 110, tp2 120, sl 95). -/
def trade_buy_ex : Trade :=
  ⟨1, "BTCUSDT", Signal.STRONG_BUY, 100, 110, 120, 95, 0, Status.ACTIVE,
   none, 0⟩

/-- Witness for C2: the example BUY trade at price 121 (past tp2, hence
also past tp1) resolves TP2_HIT/WIN. -/
theorem C2_threshold_priority_witness :
    (check_single_trade (fun _ => some 121) trade_buy_ex).1.status
        = Status.TP2_HIT ∧
    (check_single_trade (fun _ => some 121) trade_buy_ex).1.outcome
        = some Outcome.WIN :=
  ((C2_threshold_priority (fun _ => some 121) trade_buy_ex 121 rfl rfl).1
    rfl).1 (by decide)

/-! ### C3 -/

/-- C3: whenever a directional signal is produced, the trade's levels are
computed from the pivot levels as: for STRONG_BUY, tp1 = R1, tp2 = R2,
sl = min(BC, TC); for STRONG_SELL, tp1 = S1, tp2 = S2, sl = max(BC, TC);
and the trade is created ACTIVE with entry equal to the evaluated
price. -/
theorem C3_trade_levels (symbol : String) (trend_4h trend_1h : Trend)
    (cpr : Cpr) (price : ℚ) (history : List Trade) (now : ℤ) :
    (master_signal trend_4h trend_1h cpr.PP price = Signal.STRONG_BUY →
      generate_and_send_signal symbol trend_4h trend_1h cpr price history now
        = (history ++ [⟨history.length + 1, symbol, Signal.STRONG_BUY, price,
            cpr.R1, cpr.R2, min cpr.BC cpr.TC, now, Status.ACTIVE, none, 0⟩],
           true)) ∧
    (master_signal trend_4h trend_1h cpr.PP price = Signal.STRONG_SELL →
      generate_and_send_signal symbol trend_4h trend_1h cpr price history now
        = (history ++ [⟨history.length + 1, symbol, Signal.STRONG_SELL, price,
            cpr.S1, cpr.S2, max cpr.BC cpr.TC, now, Status.ACTIVE, none, 0⟩],
           true)) := by
  constructor <;> intro h <;>
    simp [generate_and_send_signal, h, signalHasBuy, signalHasSell,
      record_trade]

/-- Witness for C3: the spec's end-to-end scenario — both trends BULLISH
and price 105 above PP 100 yields a STRONG_BUY trade, created ACTIVE with
entry 105, tp1 = R1 = 110, tp2 = R2 = 120, sl = min(BC, TC) = 98. -/
theorem C3_trade_levels_witness :
    generate_and_send_signal "BTCUSDT" Trend.BULLISH Trend.BULLISH cpr_ex
      105 [] 0
      = ([⟨1, "BTCUSDT", Signal.STRONG_BUY, 105, 110, 120, 98, 0,
           Status.ACTIVE, none, 0⟩], true) :=
  ((C3_trade_levels "BTCUSDT" Trend.BULLISH Trend.BULLISH cpr_ex 105 [] 0).1
    (by decide)).trans (by decide)

end CryptoBot

namespace CryptoBot

/-! ### C4 -/

lemma check_single_trade_pnl (priceOf : String → Option ℚ) (t : Trade)
    (p : ℚ) (hact : t.status = Status.ACTIVE)
    (hp : priceOf t.symbol = some p)
    (htrans : (check_single_trade priceOf t).2 = true) :
    (check_single_trade priceOf t).1.pnl_percent =
      if signalHasBuy t.signal then (p - t.entry) / t.entry * 100
      else -((p - t.entry) / t.entry * 100) := by
  simp only [check_single_trade, hact, hp] at htrans ⊢
  split_ifs at htrans ⊢ <;> simp_all

/-- C4: on every trade resolution, the stored pnl_percent equals
((price − entry) / entry × 100), negated for SELL trades; consequently a
BUY trade resolved at price > entry has pnl_percent > 0 and a SELL trade
resolved at price < entry has pnl_percent > 0 (entry prices are positive
market prices). -/
theorem C4_pnl_percent (priceOf : String → Option ℚ) (t : Trade) (p : ℚ)
    (hact : t.status = Status.ACTIVE) (hp : priceOf t.symbol = some p)
    (htrans : (check_single_trade priceOf t).2 = true) :
    ((check_single_trade priceOf t).1.pnl_percent =
      if signalHasBuy t.signal then (p - t.entry) / t.entry * 100
      else -((p - t.entry) / t.entry * 100)) ∧
    (0 < t.entry → signalHasBuy t.signal = true → t.entry < p →
      0 < (check_single_trade priceOf t).1.pnl_percent) ∧
    (0 < t.entry → signalHasBuy t.signal = false → p < t.entry →
      0 < (check_single_trade priceOf t).1.pnl_percent) := by
  have hpnl := check_single_trade_pnl priceOf t p hact hp htrans
  refine ⟨hpnl, fun hent hb hlt => ?_, fun hent hb hlt => ?_⟩
  · rw [hpnl, if_pos hb]
    exact mul_pos (div_pos (sub_pos.mpr hlt) hent) (by norm_num)
  · rw [hpnl, if_neg (by simp [hb])]
    have h2 : (p - t.entry) / t.entry < 0 :=
      div_neg_of_neg_of_pos (sub_neg.mpr hlt) hent
    exact neg_pos.mpr (mul_neg_of_neg_of_pos h2 (by norm_num))

/-- Witness for C4: the example BUY trade (entry 100) resolved at price
121 stores pnl_percent = 21, which is positive. -/
theorem C4_pnl_percent_witness :
    (check_single_trade (fun _ => some 121) trade_buy_ex).1.pnl_percent = 21 ∧
    0 < (check_single_trade (fun _ => some 121) trade_buy_ex).1.pnl_percent :=
  ⟨((C4_pnl_percent (fun _ => some 121) trade_buy_ex 121 rfl rfl
      (by decide)).1).trans (by norm_num [trade_buy_ex, signalHasBuy]),
   (C4_pnl_percent (fun _ => some 121) trade_buy_ex 121 rfl rfl
      (by decide)).2.1 (by decide) rfl (by decide)⟩

/-! ### C5 -/

/-- C5: for every daily candle sequence with at least 2 entries, the
pivot calculator uses the second-to-last candle's H, L, C and returns
exactly PP = (H+L+C)/3, BC = (H+L)/2, TC = PP + (PP − BC), R1 = 2·PP − L,
S1 = 2·PP − H, R2 = PP + (H−L), S2 = PP − (H−L); for a sequence with
fewer than 2 entries it returns no levels (absent, not zero-filled). -/
theorem C5_cpr_levels (df_daily : List Candle) :
    (df_daily.length < 2 → calculate_cpr_levels df_daily = none) ∧
    (∀ h : 2 ≤ df_daily.length,
      calculate_cpr_levels df_daily =
        some (let prev := df_daily.get ⟨df_daily.length - 2, by omega⟩
              let H := prev.high
              let L := prev.low
              let C := prev.close
              let PP := (H + L + C) / 3
              let BC := (H + L) / 2
              ⟨PP, PP + (PP - BC), BC, 2 * PP - L, 2 * PP - H,
               PP + (H - L), PP - (H - L)⟩)) := by
  constructor
  · intro h
    simp [calculate_cpr_levels, h]
  · intro h
    have h' : ¬ df_daily.length < 2 := by omega
    have key : ∀ PP BC : ℚ, PP - BC + PP = PP + (PP - BC) := fun PP BC => by
      ring
    simp only [calculate_cpr_levels, dif_neg h', key]

/-- A concrete closed daily candle (H 110, L 90, C 100). -/
def candle_ex1 : Candle := ⟨0, 100, 110, 90, 100, 1⟩

/-- A concrete still-open daily candle, ignored by the calculator. -/
def candle_ex2 : Candle := ⟨86400, 100, 106, 99, 104, 1⟩

/-- Witness for C5: on two candles, the levels come from the first
(second-to-last) one: PP = 100, TC = 100, BC = 100, R1 = 110, S1 = 90,
R2 = 120, S2 = 80. -/
theorem C5_cpr_levels_witness :
    calculate_cpr_levels [candle_ex1, candle_ex2]
      = some ⟨100, 100, 100, 110, 90, 120, 80⟩ := by
  have h := (C5_cpr_levels [candle_ex1, candle_ex2]).2 (by norm_num)
  rw [h]
  norm_num [candle_ex1, candle_ex2]

/-! ### C6 -/

/-- C6: for every candle sequence with defined fast (window 9) and slow
(window 20) moving averages at the latest bar, the trend classification
is BULLISH if and only if the fast average is strictly greater than the
slow average, and BEARISH otherwise; in particular, when the two averages
are exactly equal the classification is BEARISH. -/
theorem C6_trend_classification (closes : List ℚ) (fast slow : ℚ)
    (h9 : sma_latest 9 closes = some fast)
    (h20 : sma_latest 20 closes = some slow) :
    (trend_latest closes = some Trend.BULLISH ↔ slow < fast) ∧
    (trend_latest closes = some Trend.BEARISH ↔ ¬ slow < fast) ∧
    (fast = slow → trend_latest closes = some Trend.BEARISH) := by
  simp only [trend_latest, h9, h20]
  refine ⟨?_, ?_, fun he => ?_⟩
  · split_ifs with h <;> simp_all
  · split_ifs with h <;> simp_all
  · subst he
    simp

/-- Witness for C6: twenty equal closes give equal averages (both 1), and
the tie classifies as BEARISH. -/
theorem C6_trend_classification_witness :
    trend_latest (List.replicate 20 (1 : ℚ)) = some Trend.BEARISH :=
  (C6_trend_classification (List.replicate 20 (1 : ℚ)) 1 1
    (by norm_num [sma_latest, List.drop_replicate, List.sum_replicate])
    (by norm_num [sma_latest, List.drop_replicate, List.sum_replicate])).2.2
    rfl

end CryptoBot

namespace CryptoBot

/-! ### C7 -/

lemma check_single_trade_not_active (priceOf : String → Option ℚ)
    (t : Trade) (h : t.status ≠ Status.ACTIVE) :
    check_single_trade priceOf t = (t, false) := by
  simp [check_single_trade, h]

lemma check_single_trade_frame (priceOf : String → Option ℚ) (t : Trade) :
    (check_single_trade priceOf t).1.id = t.id ∧
    (check_single_trade priceOf t).1.symbol = t.symbol ∧
    (check_single_trade priceOf t).1.signal = t.signal ∧
    (check_single_trade priceOf t).1.entry = t.entry ∧
    (check_single_trade priceOf t).1.tp1 = t.tp1 ∧
    (check_single_trade priceOf t).1.tp2 = t.tp2 ∧
    (check_single_trade priceOf t).1.sl = t.sl ∧
    (check_single_trade priceOf t).1.timestamp = t.timestamp := by
  by_cases h : t.status = Status.ACTIVE
  · cases hpo : priceOf t.symbol with
    | none => simp [check_single_trade, h, hpo]
    | some p =>
      simp only [check_single_trade, h, hpo]
      split_ifs <;> simp
  · simp [check_single_trade_not_active priceOf t h]

/-- C7: a monitoring pass mutates only trades whose status is ACTIVE: the
pass maps each ledger entry through the per-trade body (same length, same
positions); every trade already in a terminal status is returned entirely
unchanged; and for every trade the id, symbol, signal, entry, tp1, tp2,
sl and creation timestamp fields are never mutated. -/
theorem C7_monitor_frame (priceOf : String → Option ℚ)
    (history : List Trade) :
    (check_trades priceOf history).1.length = history.length ∧
    (∀ i : ℕ, (check_trades priceOf history).1[i]?
        = (history[i]?).map (fun t => (check_single_trade priceOf t).1)) ∧
    ∀ t ∈ history,
      (t.status ≠ Status.ACTIVE → (check_single_trade priceOf t).1 = t) ∧
      ((check_single_trade priceOf t).1.id = t.id ∧
       (check_single_trade priceOf t).1.symbol = t.symbol ∧
       (check_single_trade priceOf t).1.signal = t.signal ∧
       (check_single_trade priceOf t).1.entry = t.entry ∧
       (check_single_trade priceOf t).1.tp1 = t.tp1 ∧
       (check_single_trade priceOf t).1.tp2 = t.tp2 ∧
       (check_single_trade priceOf t).1.sl = t.sl ∧
       (check_single_trade priceOf t).1.timestamp = t.timestamp) := by
  refine ⟨by simp [check_trades], fun i => ?_, fun t ht => ?_⟩
  · simp only [check_trades, List.getElem?_map, Option.map_map]
    rfl
  · exact ⟨fun h => by rw [check_single_trade_not_active priceOf t h],
      check_single_trade_frame priceOf t⟩

/-- A concrete trade already resolved (terminal status TP2_HIT). -/
def trade_done_ex : Trade :=
  ⟨2, "ETHUSDT", Signal.STRONG_BUY, 100, 110, 120, 95, 0, Status.TP2_HIT,
   some Outcome.WIN, 21⟩

/-- Witness for C7: a resolved trade is untouched by the monitor even
when the fresh price (50) is far below its stop. -/
theorem C7_monitor_frame_witness :
    (check_single_trade (fun _ => some 50) trade_done_ex).1
      = trade_done_ex :=
  ((C7_monitor_frame (fun _ => some 50) [trade_done_ex]).2.2 trade_done_ex
    (List.mem_singleton.mpr rfl)).1 (by decide)

/-! ### C8 -/

lemma check_single_trade_snd_iff (priceOf : String → Option ℚ) (t : Trade) :
    (check_single_trade priceOf t).2 = true ↔
      t.status = Status.ACTIVE ∧
      (check_single_trade priceOf t).1.status ≠ Status.ACTIVE := by
  by_cases h : t.status = Status.ACTIVE
  · cases hpo : priceOf t.symbol with
    | none => simp [check_single_trade, h, hpo]
    | some p =>
      simp only [check_single_trade, h, hpo]
      split_ifs <;> simp [h]
  · simp [check_single_trade_not_active priceOf t h, h]

/-- C8: a monitoring pass rewrites the ledger to durable storage if and
only if at least one trade transitioned in that pass (left ACTIVE for a
terminal status); in particular, running the monitor on a ledger
containing no ACTIVE trades performs no write, changes nothing, and sends
no notification. -/
theorem C8_persistence (priceOf : String → Option ℚ)
    (history : List Trade) :
    ((check_trades priceOf history).2.1 = true ↔
      ∃ t ∈ history, t.status = Status.ACTIVE ∧
        (check_single_trade priceOf t).1.status ≠ Status.ACTIVE) ∧
    ((∀ t ∈ history, t.status ≠ Status.ACTIVE) →
      check_trades priceOf history = (history, false, 0)) := by
  constructor
  · simp only [check_trades, List.any_eq_true, List.mem_map]
    constructor
    · rintro ⟨x, ⟨t, ht, rfl⟩, h2⟩
      exact ⟨t, ht, (check_single_trade_snd_iff priceOf t).mp h2⟩
    · rintro ⟨t, ht, h2⟩
      exact ⟨check_single_trade priceOf t, ⟨t, ht, rfl⟩,
        (check_single_trade_snd_iff priceOf t).mpr h2⟩
  · induction history with
    | nil => intro _; rfl
    | cons a l ih =>
      intro hall
      have ha := check_single_trade_not_active priceOf a
        (hall a (List.mem_cons_self a l))
      have hl := ih (fun t ht => hall t (List.mem_cons_of_mem a ht))
      simp only [check_trades, Prod.mk.injEq] at hl ⊢
      obtain ⟨h1, h2, h3⟩ := hl
      refine ⟨?_, ?_, ?_⟩ <;> simp [ha, h1, h2, h3]

/-- Witness for C8: on a one-element ledger whose only trade is already
resolved, the pass returns the ledger unchanged, performs no write and
sends no notification. -/
theorem C8_persistence_witness :
    check_trades (fun _ => some 50) [trade_done_ex]
      = ([trade_done_ex], false, 0) :=
  (C8_persistence (fun _ => some 50) [trade_done_ex]).2
    (fun t ht => by rw [List.mem_singleton.mp ht]; decide)

end CryptoBot

namespace CryptoBot

/-! ### C9 -/

/-- C9: the report aggregator summarizes exactly the trades created
within the trailing 24-hour window ending at invocation time: membership
in the summarized window is `now - 24h ≤ creation time`, so a trade
created exactly 24h + 1s before now is excluded and one created 23h59m
before now is included; over the included trades the report gives the
count, the count with outcome WIN, the count with outcome LOSS, and the
sum of pnl_percent. -/
theorem C9_report_window (history : List Trade) (now : ℤ) :
    (∀ t ∈ history,
      (t ∈ daily_report_recent history now ↔ now - 86400 ≤ t.timestamp)) ∧
    (∀ t : Trade, t.timestamp = now - 86401 →
      t ∉ daily_report_recent history now) ∧
    (∀ t ∈ history, t.timestamp = now - 86340 →
      t ∈ daily_report_recent history now) ∧
    (∀ r : Report, daily_report history now = some r →
      r.signals = (history.filter
        (fun t => decide (now - 86400 ≤ t.timestamp))).length ∧
      r.wins = (history.filter (fun t =>
        decide (t.outcome = some Outcome.WIN)
          && decide (now - 86400 ≤ t.timestamp))).length ∧
      r.losses = (history.filter (fun t =>
        decide (t.outcome = some Outcome.LOSS)
          && decide (now - 86400 ≤ t.timestamp))).length ∧
      r.net_pct = ((history.filter
        (fun t => decide (now - 86400 ≤ t.timestamp))).map
        (fun t => t.pnl_percent)).sum) := by
  refine ⟨fun t ht => ?_, fun t hts hmem => ?_, fun t ht hts => ?_,
    fun r hr => ?_⟩
  · simp [daily_report_recent, List.mem_filter, ht]
  · rw [daily_report_recent, List.mem_filter] at hmem
    have h2 := hmem.2
    simp only [decide_eq_true_eq] at h2
    omega
  · rw [daily_report_recent, List.mem_filter]
    refine ⟨ht, ?_⟩
    simp only [decide_eq_true_eq]
    omega
  · simp only [daily_report] at hr
    split at hr
    · exact absurd hr (by simp)
    · rw [Option.some.injEq] at hr
      subst hr
      refine ⟨rfl, ?_, ?_, rfl⟩
      · simp [daily_report_recent, List.filter_filter]
      · simp [daily_report_recent, List.filter_filter]

/-- A concrete ACTIVE trade created 23h59m (86340 s) before the instant
100000. -/
def trade_recent_ex : Trade :=
  ⟨3, "SOLUSDT", Signal.STRONG_SELL, 100, 90, 80, 105, 13660,
   Status.ACTIVE, none, 0⟩

/-- Witness for C9: a trade created 23h59m before the invocation instant
is included in the report window. -/
theorem C9_report_window_witness :
    trade_recent_ex ∈ daily_report_recent [trade_recent_ex] 100000 :=
  (C9_report_window [trade_recent_ex] 100000).2.2.1 trade_recent_ex
    (List.mem_singleton.mpr rfl) (by decide)

/-! ### C10 -/

/-- C10: the status endpoint's win-rate computation is total: for every
ledger state, if no trade has outcome WIN or LOSS the reported win rate
is 0 (the guarded division is never evaluated with a zero divisor);
otherwise wins + losses is positive and the win rate equals
wins / (wins + losses) × 100. -/
theorem C10_winrate (history : List Trade) :
    ((∀ t ∈ history, t.outcome ≠ some Outcome.WIN ∧
        t.outcome ≠ some Outcome.LOSS) → home_wr history = 0) ∧
    ((∃ t ∈ history, t.outcome = some Outcome.WIN ∨
        t.outcome = some Outcome.LOSS) →
      0 < home_wins history + home_losses history ∧
      home_wr history = (home_wins history : ℚ) /
        ((home_wins history : ℚ) + (home_losses history : ℚ)) * 100) := by
  constructor
  · intro hall
    have hw : home_wins history = 0 := by
      simp only [home_wins, List.length_eq_zero, List.filter_eq_nil_iff]
      intro t ht
      simp [(hall t ht).1]
    have hl : home_losses history = 0 := by
      simp only [home_losses, List.length_eq_zero, List.filter_eq_nil_iff]
      intro t ht
      simp [(hall t ht).2]
    simp [home_wr, hw, hl]
  · rintro ⟨t, ht, hout⟩
    have hpos : 0 < home_wins history + home_losses history := by
      rcases hout with h | h
      · have hmem : t ∈ history.filter
            (fun t => decide (t.outcome = some Outcome.WIN)) :=
          List.mem_filter.mpr ⟨ht, by simp [h]⟩
        have := List.length_pos_of_mem hmem
        unfold home_wins home_losses
        omega
      · have hmem : t ∈ history.filter
            (fun t => decide (t.outcome = some Outcome.LOSS)) :=
          List.mem_filter.mpr ⟨ht, by simp [h]⟩
        have := List.length_pos_of_mem hmem
        unfold home_wins home_losses
        omega
    refine ⟨hpos, ?_⟩
    unfold home_wr
    rw [if_pos hpos]

/-- Witness for C10: a one-trade ledger whose trade is a WIN has a
positive divisor and the unguarded win-rate formula applies. -/
theorem C10_winrate_witness :
    0 < home_wins [trade_done_ex] + home_losses [trade_done_ex] ∧
    home_wr [trade_done_ex] = (home_wins [trade_done_ex] : ℚ) /
      ((home_wins [trade_done_ex] : ℚ) + (home_losses [trade_done_ex] : ℚ))
      * 100 :=
  (C10_winrate [trade_done_ex]).2
    ⟨trade_done_ex, List.mem_singleton.mpr rfl, Or.inl rfl⟩

end CryptoBot
